import Mathlib

/-!
Shallow embedding of the SqlitePatternStore of the `patterns` repository
(`src/sqlite-store.ts`, submissions-era revision) together with the
submission endpoints of `src/api.ts`.

The relational state (tables `domains`, `categories`, `patterns`,
`submissions`) is modelled as lists of rows plus the AUTOINCREMENT
counters.  Every mutating method of the TypeScript class becomes a
function `Store → … → Except Err α × Store`: the second component is the
database state after the call, so that a call that throws after having
executed some SQL statements would return the partially mutated state.
Single SQL statements are atomic (a failing INSERT/UPDATE/DELETE mutates
nothing), which the primitive operations reflect.  `datetime('now')` is
modelled by an explicit `now : Nat` argument.
-/

namespace Patterns

/-- Review decisions accepted by `reviewSubmission`. -/
inductive Decision where
  | accepted
  | rejected
deriving DecidableEq

/-- The `status` column of the `submissions` table
(`CHECK(status IN ('pending','accepted','rejected'))`). -/
inductive SubStatus where
  | pending
  | accepted
  | rejected
deriving DecidableEq

/-- Classification of the errors the store can raise, following the
mapping `src/api.ts` applies to the thrown `Error` messages:
`notFound` for the "… not found" messages (HTTP 404), `conflict` for
"already been reviewed" and for SQLite UNIQUE-constraint violations
(HTTP 409), `checkViolation` / `fkViolation` for the other SQLite
constraint failures, `validation` for the 400 responses produced by the
handlers before any store access. -/
inductive Err where
  | notFound
  | conflict
  | checkViolation
  | fkViolation
  | validation
deriving DecidableEq

/-- A row of the `domains` table. -/
structure DomainRow where
  id : Nat
  slug : String
  name : String
  description : String
deriving DecidableEq

/-- A row of the `categories` table (`UNIQUE(domain_id, slug)`,
`FOREIGN KEY (domain_id) REFERENCES domains(id) ON DELETE CASCADE`). -/
structure CategoryRow where
  id : Nat
  domainId : Nat
  slug : String
  name : String
  description : String
deriving DecidableEq

/-- A row of the `patterns` table
(`FOREIGN KEY (category_id) REFERENCES categories(id) ON DELETE CASCADE`). -/
structure PatternRow where
  id : Nat
  categoryId : Nat
  label : String
  description : String
  intention : String
  template : String
deriving DecidableEq

/-- A row of the `submissions` table.  `type` is a string constrained by
`CHECK(type IN ('new','modify'))`; `target_pattern_id` is a nullable
foreign key with `ON DELETE SET NULL`. -/
structure SubmissionRow where
  id : Nat
  type : String
  status : SubStatus
  targetPatternId : Option Nat
  domainSlug : Option String
  categorySlug : Option String
  label : String
  description : String
  intention : String
  template : String
  source : Option String
  submittedAt : Nat
  reviewedAt : Option Nat
deriving DecidableEq

/-- The database state: the four tables plus the AUTOINCREMENT counters. -/
structure Store where
  domains : List DomainRow
  categories : List CategoryRow
  patterns : List PatternRow
  submissions : List SubmissionRow
  nextDomainId : Nat
  nextCategoryId : Nat
  nextPatternId : Nat
  nextSubmissionId : Nat
deriving DecidableEq

/-- A freshly initialized database (ids start at 1 in SQLite). -/
def Store.empty : Store :=
  ⟨[], [], [], [], 1, 1, 1, 1⟩

deriving instance DecidableEq for Except

/-- The `Pattern` interface of `src/types.ts` (no id). -/
structure Pattern where
  label : String
  description : String
  intention : String
  template : String
deriving DecidableEq

/-- The `PatternWithId` interface of `src/types.ts`. -/
structure PatternWithId where
  id : Nat
  label : String
  description : String
  intention : String
  template : String
deriving DecidableEq

/-- `SELECT id … FROM domains WHERE slug = ?` (`.get()` takes the first
matching row). -/
def findDomain (st : Store) (slug : String) : Option DomainRow :=
  st.domains.find? (fun d => d.slug == slug)

/-- `SELECT c.id FROM categories c JOIN domains d ON c.domain_id = d.id
WHERE d.slug = ? AND c.slug = ?`. -/
def findCategory (st : Store) (domainSlug categorySlug : String) : Option CategoryRow :=
  (findDomain st domainSlug).bind fun d =>
    st.categories.find? (fun c => c.domainId == d.id && c.slug == categorySlug)

/-- `addDomain`: a single INSERT whose UNIQUE constraint on `slug`
rejects duplicates (surfaced by the API as 409 Conflict). -/
def addDomain (st : Store) (slug name description : String) :
    Except Err Unit × Store :=
  if st.domains.any (fun d => d.slug == slug) then
    (.error .conflict, st)
  else
    (.ok (),
      { st with
        domains := st.domains ++ [⟨st.nextDomainId, slug, name, description⟩]
        nextDomainId := st.nextDomainId + 1 })

/-- `addCategory`: looks up the domain (throws "Domain not found" when
missing), then INSERTs; `UNIQUE(domain_id, slug)` rejects a duplicate
slug under the same domain. -/
def addCategory (st : Store) (domainSlug : String)
    (slug name description : String) : Except Err Unit × Store :=
  match findDomain st domainSlug with
  | none => (.error .notFound, st)
  | some d =>
    if st.categories.any (fun c => c.domainId == d.id && c.slug == slug) then
      (.error .conflict, st)
    else
      (.ok (),
        { st with
          categories :=
            st.categories ++ [⟨st.nextCategoryId, d.id, slug, name, description⟩]
          nextCategoryId := st.nextCategoryId + 1 })

/-- `addPattern`: resolves the (domain, category) pair via the JOIN
(throws "Category not found" when it does not resolve), then INSERTs the
pattern with a fresh id. -/
def addPattern (st : Store) (domainSlug categorySlug : String)
    (p : Pattern) : Except Err Unit × Store :=
  match findCategory st domainSlug categorySlug with
  | none => (.error .notFound, st)
  | some c =>
    (.ok (),
      { st with
        patterns :=
          st.patterns ++
            [⟨st.nextPatternId, c.id, p.label, p.description, p.intention, p.template⟩]
        nextPatternId := st.nextPatternId + 1 })

/-- The `changes` argument of `updateDomain` / `updateCategory`. -/
structure NameChanges where
  name : Option String
  description : Option String
deriving DecidableEq

/-- `updateDomain`: returns immediately when no field is supplied;
otherwise runs `UPDATE domains SET … WHERE slug = ?` and throws
"Domain not found" when `result.changes === 0`. -/
def updateDomain (st : Store) (slug : String) (changes : NameChanges) :
    Except Err Unit × Store :=
  if changes.name = none ∧ changes.description = none then
    (.ok (), st)
  else
    if st.domains.any (fun d => d.slug == slug) then
      (.ok (),
        { st with
          domains := st.domains.map fun d =>
            if d.slug == slug then
              { d with
                name := changes.name.getD d.name
                description := changes.description.getD d.description }
            else d })
    else (.error .notFound, st)

/-- `updateCategory`: resolves the category first (throwing
"Category not found" even when no field is supplied), then returns when
no field is supplied, else UPDATEs by id. -/
def updateCategory (st : Store) (domainSlug categorySlug : String)
    (changes : NameChanges) : Except Err Unit × Store :=
  match findCategory st domainSlug categorySlug with
  | none => (.error .notFound, st)
  | some c =>
    if changes.name = none ∧ changes.description = none then
      (.ok (), st)
    else
      (.ok (),
        { st with
          categories := st.categories.map fun cr =>
            if cr.id == c.id then
              { cr with
                name := changes.name.getD cr.name
                description := changes.description.getD cr.description }
            else cr })

/-- The `changes` argument of `updatePattern`. -/
structure PatternChanges where
  label : Option String
  description : Option String
  intention : Option String
  template : Option String
deriving DecidableEq

/-- `updatePattern`: returns immediately when no field is supplied;
otherwise `UPDATE patterns SET … WHERE id = ?`, throwing
"Pattern not found" when `result.changes === 0`. -/
def updatePattern (st : Store) (id : Nat) (changes : PatternChanges) :
    Except Err Unit × Store :=
  if changes.label = none ∧ changes.description = none ∧
      changes.intention = none ∧ changes.template = none then
    (.ok (), st)
  else
    if st.patterns.any (fun p => p.id == id) then
      (.ok (),
        { st with
          patterns := st.patterns.map fun p =>
            if p.id == id then
              { p with
                label := changes.label.getD p.label
                description := changes.description.getD p.description
                intention := changes.intention.getD p.intention
                template := changes.template.getD p.template }
            else p })
    else (.error .notFound, st)

/-- Effect of deleting a set of pattern ids on the `submissions` table:
the `ON DELETE SET NULL` foreign key nulls every `target_pattern_id`
that referenced a deleted pattern. -/
def setNullTargets (subs : List SubmissionRow) (removedIds : List Nat) :
    List SubmissionRow :=
  subs.map fun s =>
    match s.targetPatternId with
    | some t => if removedIds.contains t then { s with targetPatternId := none } else s
    | none => s

/-- `deleteDomain`: `DELETE FROM domains WHERE slug = ?` (throwing
"Domain not found" when `result.changes === 0`); the `ON DELETE CASCADE`
foreign keys remove the owned categories and their patterns, and the
`ON DELETE SET NULL` key nulls submission references to the removed
patterns. -/
def deleteDomain (st : Store) (slug : String) : Except Err Unit × Store :=
  let removed := st.domains.filter (fun d => d.slug == slug)
  if removed.isEmpty then
    (.error .notFound, st)
  else
    let removedCatIds :=
      (st.categories.filter fun c => removed.any fun d => d.id == c.domainId).map (·.id)
    let removedPatIds :=
      (st.patterns.filter fun p => removedCatIds.contains p.categoryId).map (·.id)
    (.ok (),
      { st with
        domains := st.domains.filter fun d => !(d.slug == slug)
        categories := st.categories.filter fun c => !(removed.any fun d => d.id == c.domainId)
        patterns := st.patterns.filter fun p => !(removedCatIds.contains p.categoryId)
        submissions := setNullTargets st.submissions removedPatIds })

/-- `deletePattern`: `DELETE FROM patterns WHERE id = ?` (throwing
"Pattern not found" when `result.changes === 0`), with the
`ON DELETE SET NULL` effect on submissions. -/
def deletePattern (st : Store) (id : Nat) : Except Err Unit × Store :=
  if st.patterns.any (fun p => p.id == id) then
    (.ok (),
      { st with
        patterns := st.patterns.filter fun p => !(p.id == id)
        submissions := setNullTargets st.submissions [id] })
  else (.error .notFound, st)

/-- Order used by `ORDER BY c.slug, p.id` on the joined rows of
`getPatterns` / `getPatternsWithIds`. -/
def rowLe (a b : String × PatternRow) : Prop :=
  a.1 < b.1 ∨ (a.1 = b.1 ∧ a.2.id ≤ b.2.id)

instance : DecidableRel rowLe := fun a b => by
  unfold rowLe; infer_instance

instance : IsTotal (String × PatternRow) rowLe where
  total a b := by
    rcases lt_trichotomy a.1 b.1 with h | h | h
    · exact Or.inl (Or.inl h)
    · rcases Nat.le_total a.2.id b.2.id with h2 | h2
      · exact Or.inl (Or.inr ⟨h, h2⟩)
      · exact Or.inr (Or.inr ⟨h.symm, h2⟩)
    · exact Or.inr (Or.inl h)

instance : IsTrans (String × PatternRow) rowLe where
  trans a b c hab hbc := by
    rcases hab with h1 | ⟨e1, l1⟩
    · rcases hbc with h2 | ⟨e2, _⟩
      · exact Or.inl (h1.trans h2)
      · exact Or.inl (e2 ▸ h1)
    · rcases hbc with h2 | ⟨e2, l2⟩
      · exact Or.inl (e1 ▸ h2)
      · exact Or.inr ⟨e1.trans e2, l1.trans l2⟩

/-- The joined, ordered row set of the SQL query of `getPatterns` /
`getPatternsWithIds`:
`SELECT … FROM patterns p JOIN categories c ON p.category_id = c.id
WHERE c.domain_id = ? AND c.slug IN (…) ORDER BY c.slug, p.id`,
guarded by the early returns on an empty slug list and on an unknown
domain. -/
def patternQueryRows (st : Store) (domainSlug : String)
    (categorySlugs : List String) : List (String × PatternRow) :=
  if categorySlugs.isEmpty then []
  else
    match findDomain st domainSlug with
    | none => []
    | some d =>
      List.insertionSort rowLe
        (st.patterns.filterMap fun p =>
          match st.categories.find? (fun c => c.id == p.categoryId) with
          | some c =>
            if c.domainId == d.id && categorySlugs.contains c.slug then
              some (c.slug, p)
            else none
          | none => none)

/-- `getPatterns`: the query rows projected to the `Pattern` fields. -/
def getPatterns (st : Store) (domainSlug : String)
    (categorySlugs : List String) : List Pattern :=
  (patternQueryRows st domainSlug categorySlugs).map fun r =>
    ⟨r.2.label, r.2.description, r.2.intention, r.2.template⟩

/-- `getPatternsWithIds`: the query rows with the pattern id kept. -/
def getPatternsWithIds (st : Store) (domainSlug : String)
    (categorySlugs : List String) : List PatternWithId :=
  (patternQueryRows st domainSlug categorySlugs).map fun r =>
    ⟨r.2.id, r.2.label, r.2.description, r.2.intention, r.2.template⟩

/-- Order used by `ORDER BY slug` on category rows. -/
def catLe (a b : CategoryRow) : Prop := a.slug ≤ b.slug

instance : DecidableRel catLe := fun a b => by
  unfold catLe; infer_instance

instance : IsTotal CategoryRow catLe where
  total a b := le_total a.slug b.slug

instance : IsTrans CategoryRow catLe where
  trans _ _ _ hab hbc := le_trans hab hbc

/-- Order used by `ORDER BY id` on pattern rows. -/
def patLe (a b : PatternRow) : Prop := a.id ≤ b.id

instance : DecidableRel patLe := fun a b => by
  unfold patLe; infer_instance

instance : IsTotal PatternRow patLe where
  total a b := Nat.le_total a.id b.id

instance : IsTrans PatternRow patLe where
  trans _ _ _ hab hbc := le_trans hab hbc

/-- `getPatternsForCategoryId`:
`SELECT … FROM patterns WHERE category_id = ? ORDER BY id`. -/
def getPatternsForCategoryId (st : Store) (categoryId : Nat) : List PatternWithId :=
  (List.insertionSort patLe (st.patterns.filter fun p => p.categoryId == categoryId)).map
    fun p => ⟨p.id, p.label, p.description, p.intention, p.template⟩

/-- The `Category` interface of `src/types.ts` (a category with its
patterns, as returned by the read methods). -/
structure CategoryOut where
  slug : String
  name : String
  description : String
  patterns : List PatternWithId
deriving DecidableEq

/-- `getCategoriesForDomainId`:
`SELECT … FROM categories WHERE domain_id = ? ORDER BY slug`, with the
patterns of each category attached. -/
def getCategoriesForDomainId (st : Store) (domainId : Nat) : List CategoryOut :=
  (List.insertionSort catLe (st.categories.filter fun c => c.domainId == domainId)).map
    fun c => ⟨c.slug, c.name, c.description, getPatternsForCategoryId st c.id⟩

/-- `getCategories`: empty list (not an error) for an unknown domain. -/
def getCategories (st : Store) (domainSlug : String) : List CategoryOut :=
  match findDomain st domainSlug with
  | none => []
  | some d => getCategoriesForDomainId st d.id

/-- The `SubmissionInput` interface of `src/types.ts` (plus the `source`
field of the suggest-tool revision).  `type` is a plain string at the
database level, constrained only by the CHECK clause. -/
structure SubmissionInput where
  type : String
  targetPatternId : Option Nat
  domainSlug : Option String
  categorySlug : Option String
  label : String
  description : String
  intention : String
  template : String
  source : Option String
deriving DecidableEq

/-- `addSubmission`: a single INSERT.  The method itself performs no
validation; the INSERT fails atomically when the CHECK constraint on
`type` or the foreign key on `target_pattern_id` is violated.  On
success the row is stored with the DEFAULT `status = 'pending'`,
`submitted_at = datetime('now')`, `reviewed_at` NULL, and
`lastInsertRowid` is returned. -/
def addSubmission (st : Store) (now : Nat) (input : SubmissionInput) :
    Except Err Nat × Store :=
  let fkOk : Bool :=
    match input.targetPatternId with
    | some t => st.patterns.any fun p => p.id == t
    | none => true
  if !(input.type == "new" || input.type == "modify") then
    (.error .checkViolation, st)
  else if !fkOk then
    (.error .fkViolation, st)
  else
    (.ok st.nextSubmissionId,
      { st with
        submissions :=
          st.submissions ++
            [⟨st.nextSubmissionId, input.type, .pending, input.targetPatternId,
              input.domainSlug, input.categorySlug, input.label, input.description,
              input.intention, input.template, input.source, now, none⟩]
        nextSubmissionId := st.nextSubmissionId + 1 })

/-- `getSubmission`: `SELECT … FROM submissions WHERE id = ?`. -/
def getSubmission (st : Store) (id : Nat) : Option SubmissionRow :=
  st.submissions.find? (fun s => s.id == id)

/-- The terminal status a decision writes to the reviewed row. -/
def Decision.toStatus : Decision → SubStatus
  | .accepted => .accepted
  | .rejected => .rejected

/-- The side effects of the `decision === "accepted"` branch of
`reviewSubmission`: a `new` submission is materialized via `addPattern`
on the stored slugs (the SQL JOIN matches nothing when a slug is NULL,
so `addPattern` throws "Category not found"), and a `modify` submission
is materialized via `updatePattern` only when `targetPatternId` is
truthy — a nulled reference is silently skipped. -/
def applyAccepted (st : Store) (sub : SubmissionRow) : Except Err Unit × Store :=
  if sub.type == "new" then
    match sub.domainSlug, sub.categorySlug with
    | some ds, some cs =>
      addPattern st ds cs ⟨sub.label, sub.description, sub.intention, sub.template⟩
    | _, _ => (.error .notFound, st)
  else if sub.type == "modify" then
    match sub.targetPatternId with
    | some t =>
      updatePattern st t
        ⟨some sub.label, some sub.description, some sub.intention, some sub.template⟩
    | none => (.ok (), st)
  else (.ok (), st)

/-- The decision-dependent side effects of `reviewSubmission`
(`rejected` has none). -/
def applyDecision (st : Store) (sub : SubmissionRow) :
    Decision → Except Err Unit × Store
  | .accepted => applyAccepted st sub
  | .rejected => (.ok (), st)

/-- `reviewSubmission`: throws "Submission not found" for an unknown id
and "already been reviewed" when the status is not `pending`; otherwise
performs the decision's side effects and, when they did not throw,
writes the row's status and `reviewed_at`. -/
def reviewSubmission (st : Store) (now : Nat) (id : Nat)
    (decision : Decision) : Except Err Unit × Store :=
  match getSubmission st id with
  | none => (.error .notFound, st)
  | some sub =>
    if sub.status ≠ SubStatus.pending then
      (.error .conflict, st)
    else
      match applyDecision st sub decision with
      | (.error e, st1) => (.error e, st1)
      | (.ok _, st1) =>
        (.ok (),
          { st1 with
            submissions := st1.submissions.map fun s =>
              if s.id == id then
                { s with status := decision.toStatus, reviewedAt := some now }
              else s })

/-- The request body of `POST /api/submissions` as destructured by the
handler: every field may be absent (and, per JavaScript truthiness, an
empty string counts as absent for the required-field check). -/
structure SubmissionBody where
  type : Option String
  targetPatternId : Option Nat
  domainSlug : Option String
  categorySlug : Option String
  label : Option String
  description : Option String
  intention : Option String
  template : Option String
  source : Option String
deriving DecidableEq

/-- JavaScript truthiness of an optional string field. -/
def present (o : Option String) : Bool :=
  match o with
  | some s => !(s == "")
  | none => false

/-- The `POST /api/submissions` handler of `src/api.ts`: rejects with
400 (modelled as `Err.validation`) when `type`, `label`, `description`,
`intention` or `template` is falsy, or when `type` is neither `'new'`
nor `'modify'`; only then calls `store.addSubmission`. -/
def apiPostSubmission (st : Store) (now : Nat) (body : SubmissionBody) :
    Except Err Nat × Store :=
  if !(present body.type && present body.label && present body.description &&
      present body.intention && present body.template) then
    (.error .validation, st)
  else if !(body.type == some "new" || body.type == some "modify") then
    (.error .validation, st)
  else
    addSubmission st now
      ⟨body.type.getD "", body.targetPatternId, body.domainSlug, body.categorySlug,
        body.label.getD "", body.description.getD "", body.intention.getD "",
        body.template.getD "", body.source⟩

/-! Concrete stores used by the claim theorems and witnesses. -/

/-- A store holding one pending `new` submission whose `domain_slug` /
`category_slug` do not exist anywhere in the hierarchy. -/
def newSubMissingHierarchyStore : Store :=
  (addSubmission Store.empty 1
    ⟨"new", none, some "physics", some "mechanics", "pendulum", "d", "i", "t", none⟩).2

/-- A store in which a `modify` submission was created against pattern 1
and the pattern was deleted afterwards (the `ON DELETE SET NULL` foreign
key nulled the reference). -/
def orphanedModifyStore : Store :=
  let st1 := (addDomain Store.empty "eng" "Engineering" "E").2
  let st2 := (addCategory st1 "eng" "features" "Features" "F").2
  let st3 := (addPattern st2 "eng" "features" ⟨"orig", "d", "i", "t"⟩).2
  let st4 := (addSubmission st3 5 ⟨"modify", some 1, none, none, "v2", "d2", "i2", "t2", none⟩).2
  (deletePattern st4 1).2

/-- A store whose single submission has already been reviewed
(rejected at time 2). -/
def reviewedStore : Store :=
  let st1 := (addSubmission Store.empty 1
    ⟨"new", none, some "a", some "b", "l", "d", "i", "t", none⟩).2
  (reviewSubmission st1 2 1 Decision.rejected).2

/-! Helper lemmas: the failing operations mutate nothing. -/

/-- A failing `addPattern` call leaves the state unchanged. -/
theorem addPattern_error_state (st : Store) (ds cs : String) (p : Pattern) (e : Err) :
    (addPattern st ds cs p).1 = Except.error e → (addPattern st ds cs p).2 = st := by
  unfold addPattern
  cases findCategory st ds cs <;> simp

/-- A failing `updatePattern` call leaves the state unchanged. -/
theorem updatePattern_error_state (st : Store) (id : Nat) (ch : PatternChanges) (e : Err) :
    (updatePattern st id ch).1 = Except.error e → (updatePattern st id ch).2 = st := by
  unfold updatePattern
  split
  · simp
  · split <;> simp

/-- A failing accept branch leaves the state unchanged. -/
theorem applyAccepted_error_state (st : Store) (sub : SubmissionRow) (e : Err) :
    (applyAccepted st sub).1 = Except.error e → (applyAccepted st sub).2 = st := by
  unfold applyAccepted
  split
  · split
    · exact addPattern_error_state _ _ _ _ _
    · simp
  · split
    · split
      · exact updatePattern_error_state _ _ _ _
      · simp
    · simp

/-- A failing decision application leaves the state unchanged. -/
theorem applyDecision_error_state (st : Store) (sub : SubmissionRow) (d : Decision) (e : Err) :
    (applyDecision st sub d).1 = Except.error e → (applyDecision st sub d).2 = st := by
  cases d with
  | accepted => exact applyAccepted_error_state st sub e
  | rejected => simp [applyDecision]

/-! Claim theorems. -/

/-- C1: the claim asserts that accepting a pending `kind="new"`
submission whose `topSlug`/`subdivisionSlug` do not exist auto-creates
the missing TopNode/Subdivision and never fails.  The code has no
auto-creation: evaluated on a store whose hierarchy is empty and whose
submission targets `physics`/`mechanics`, `reviewSubmission` raises
NotFound ("Category not found"), creates nothing, and leaves the
submission pending. -/
theorem c1_acceptNewMissingHierarchyFails :
    reviewSubmission newSubMissingHierarchyStore 2 1 Decision.accepted =
      (Except.error Err.notFound, newSubMissingHierarchyStore) ∧
    newSubMissingHierarchyStore.domains = [] ∧
    newSubMissingHierarchyStore.categories = [] ∧
    (getSubmission newSubMissingHierarchyStore 1).map (fun s => s.status) =
      some SubStatus.pending := by
  decide

/-- C2: the claim asserts that accepting a pending `kind="modify"`
submission whose target Leaf was deleted fails with NotFound and leaves
the submission pending.  Evaluated on such a store, the code instead
succeeds: the nulled `targetPatternId` makes the accept branch skip the
update silently, and the submission is marked `accepted` with
`reviewedAt` set while no pattern exists to receive the edit. -/
theorem c2_acceptOrphanedModifySilentlySucceeds :
    (getSubmission orphanedModifyStore 1).map (fun s => s.targetPatternId) = some none ∧
    (reviewSubmission orphanedModifyStore 9 1 Decision.accepted).1 = Except.ok () ∧
    ((reviewSubmission orphanedModifyStore 9 1 Decision.accepted).2.submissions.map
      fun s => (s.status, s.reviewedAt)) = [(SubStatus.accepted, some 9)] ∧
    (reviewSubmission orphanedModifyStore 9 1 Decision.accepted).2.patterns = [] := by
  decide

/-- C3: acceptance is all-or-nothing — whenever the accept path of
`reviewSubmission` fails, the returned state is exactly the input state:
the submission (still pending, `reviewedAt` null) and the hierarchy
tables are untouched. -/
theorem c3_failedAcceptanceLeavesStoreUnchanged (st : Store) (now id : Nat) (e : Err) :
    (reviewSubmission st now id Decision.accepted).1 = Except.error e →
    (reviewSubmission st now id Decision.accepted).2 = st := by
  rcases hfind : getSubmission st id with _ | sub
  · simp [reviewSubmission, hfind]
  · rcases happ : applyDecision st sub Decision.accepted with ⟨r, st1⟩
    by_cases hst : sub.status ≠ SubStatus.pending
    · simp [reviewSubmission, hfind, hst]
    · cases r with
      | ok u => simp [reviewSubmission, hfind, hst, happ]
      | error e2 =>
        have h2 := applyDecision_error_state st sub Decision.accepted e2 (by rw [happ])
        rw [happ] at h2
        simp [reviewSubmission, hfind, hst, happ, h2]

/-- Witness for C3 at a concrete failing acceptance. -/
theorem c3_failedAcceptanceLeavesStoreUnchanged_witness :
    (reviewSubmission newSubMissingHierarchyStore 2 1 Decision.accepted).1 =
      Except.error Err.notFound ∧
    (reviewSubmission newSubMissingHierarchyStore 2 1 Decision.accepted).2 =
      newSubMissingHierarchyStore :=
  ⟨by decide,
   c3_failedAcceptanceLeavesStoreUnchanged newSubMissingHierarchyStore 2 1 Err.notFound
     (by decide)⟩

/-- C4: `reviewSubmission` fails with NotFound for an unknown id and
with Conflict when the submission is no longer pending, in both cases
returning the state unchanged (so a failed second review alters neither
`status` nor `reviewedAt`). -/
theorem c4_reviewUnknownOrReviewedFails (st : Store) (now id : Nat) (d : Decision) :
    (getSubmission st id = none →
      reviewSubmission st now id d = (Except.error Err.notFound, st)) ∧
    (∀ sub, getSubmission st id = some sub → sub.status ≠ SubStatus.pending →
      reviewSubmission st now id d = (Except.error Err.conflict, st)) := by
  constructor
  · intro h
    simp [reviewSubmission, h]
  · intro sub h hst
    simp [reviewSubmission, h, hst]

/-- Witness for C4: on a store whose submission 1 was already rejected,
reviewing the unknown id 2 fails NotFound and re-reviewing id 1 fails
Conflict, both leaving the store unchanged. -/
theorem c4_reviewUnknownOrReviewedFails_witness :
    reviewSubmission reviewedStore 9 2 Decision.accepted =
      (Except.error Err.notFound, reviewedStore) ∧
    reviewSubmission reviewedStore 9 1 Decision.accepted =
      (Except.error Err.conflict, reviewedStore) :=
  ⟨(c4_reviewUnknownOrReviewedFails reviewedStore 9 2 Decision.accepted).1 (by decide),
   (c4_reviewUnknownOrReviewedFails reviewedStore 9 1 Decision.accepted).2
     ⟨1, "new", SubStatus.rejected, none, some "a", some "b", "l", "d", "i", "t", none, 1, some 2⟩
     (by decide) (by decide)⟩

/-- A `POST /api/submissions` body for a `modify` proposal that carries
no `targetPatternId`. -/
def modifyNoTargetBody : SubmissionBody :=
  ⟨some "modify", none, none, none, some "v2", some "d", some "i", some "t", none⟩

/-- A well-formed `POST /api/submissions` body for a `new` proposal. -/
def newProposalBody : SubmissionBody :=
  ⟨some "new", none, some "eng", some "feat", some "l", some "d", some "i", some "t", some "src"⟩

/-- C5 counterexample: the claim requires `targetLeafId` to be present
for a `kind="modify"` submission, rejected before any storage write.
The handler and `addSubmission` accept it: a `modify` body with no
target id is stored (status `pending`, `reviewedAt` null) and its id is
returned. -/
theorem c5_modifyWithoutTargetStored_counterexample :
    (apiPostSubmission Store.empty 3 modifyNoTargetBody).1 = Except.ok 1 ∧
    ((apiPostSubmission Store.empty 3 modifyNoTargetBody).2.submissions.map
      fun s => (s.type, s.status, s.targetPatternId, s.submittedAt, s.reviewedAt)) =
      [("modify", SubStatus.pending, none, 3, none)] := by
  decide

/-- C5 amended: the `POST /api/submissions` handler rejects, before any
storage access and leaving the state unchanged, a body whose `type`,
`label`, `description`, `intention` or `template` is falsy, or whose
`type` is neither `new` nor `modify`; kind-specific fields are not
required, and a body passing those checks (here with a null
`targetPatternId`) is stored with status `pending`, `submittedAt = now`,
`reviewedAt` null, and the assigned id is returned. -/
theorem c5_submissionValidation_amended (st : Store) (now : Nat) (body : SubmissionBody) :
    ((present body.type && present body.label && present body.description &&
        present body.intention && present body.template) = false →
      apiPostSubmission st now body = (Except.error Err.validation, st)) ∧
    ((body.type == some "new" || body.type == some "modify") = false →
      apiPostSubmission st now body = (Except.error Err.validation, st)) ∧
    (∀ ty, body.type = some ty → (ty = "new" ∨ ty = "modify") →
      (present body.label && present body.description && present body.intention &&
        present body.template) = true →
      body.targetPatternId = none →
      apiPostSubmission st now body =
        (Except.ok st.nextSubmissionId,
          { st with
            submissions := st.submissions ++
              [⟨st.nextSubmissionId, ty, SubStatus.pending, none, body.domainSlug,
                body.categorySlug, body.label.getD "", body.description.getD "",
                body.intention.getD "", body.template.getD "", body.source, now, none⟩]
            nextSubmissionId := st.nextSubmissionId + 1 })) := by
  refine ⟨?_, ?_, ?_⟩
  · intro h
    simp [apiPostSubmission, h]
  · intro h
    cases hb : (present body.type && present body.label && present body.description &&
        present body.intention && present body.template) with
    | false => simp [apiPostSubmission, hb]
    | true => simp [apiPostSubmission, hb, h]
  · intro ty hty hvalid hpres htarget
    have hptype : present (some ty) = true := by
      rcases hvalid with h | h <;> simp [h, present]
    have hparts : ((present body.label = true ∧ present body.description = true) ∧
        present body.intention = true) ∧ present body.template = true := by
      simpa [Bool.and_eq_true] using hpres
    rcases hparts with ⟨⟨⟨hl, hd⟩, hi2⟩, ht2⟩
    have htyok : (body.type == some "new" || body.type == some "modify") = true := by
      rw [hty]
      rcases hvalid with h | h <;> simp [h]
    have htyval : (!(ty == "new" || ty == "modify")) = false := by
      rcases hvalid with h | h <;> simp [h]
    simp only [apiPostSubmission, addSubmission, hty, htarget, htyok, htyval]
    simp only [hptype, hl, hd, hi2, ht2]
    rcases hvalid with h | h <;> simp [h]

/-- Witness for C5 amended: a well-formed `new` body with no target id
is stored on the empty store. -/
theorem c5_submissionValidation_amended_witness :
    apiPostSubmission Store.empty 7 newProposalBody =
      (Except.ok Store.empty.nextSubmissionId,
        { Store.empty with
          submissions := Store.empty.submissions ++
            [⟨Store.empty.nextSubmissionId, "new", SubStatus.pending, none, some "eng",
              some "feat", "l", "d", "i", "t", some "src", 7, none⟩]
          nextSubmissionId := Store.empty.nextSubmissionId + 1 }) :=
  (c5_submissionValidation_amended Store.empty 7 newProposalBody).2.2 "new" rfl
    (Or.inl rfl) (by decide) rfl

/-- C6: deleting an existing TopNode removes it together with exactly
its owned Subdivisions and their Leaves (N + M + 1 rows, expressed by
the filter equations and the length equations), after which
`getCategories` and `getPatterns` for that slug return empty
collections; deleting a nonexistent TopNode fails with NotFound. -/
theorem c6_deleteDomainCascades (st : Store) (slug : String) :
    (findDomain st slug = none → deleteDomain st slug = (Except.error Err.notFound, st)) ∧
    (∀ d, st.domains.filter (fun x => x.slug == slug) = [d] →
      (deleteDomain st slug).1 = Except.ok () ∧
      (deleteDomain st slug).2.domains = st.domains.filter (fun x => !(x.slug == slug)) ∧
      (deleteDomain st slug).2.domains.length + 1 = st.domains.length ∧
      (deleteDomain st slug).2.categories =
        st.categories.filter (fun c => !(d.id == c.domainId)) ∧
      (deleteDomain st slug).2.categories.length +
        (st.categories.filter (fun c => d.id == c.domainId)).length = st.categories.length ∧
      (deleteDomain st slug).2.patterns =
        st.patterns.filter (fun p =>
          !(((st.categories.filter (fun c => d.id == c.domainId)).map (fun c => c.id)).contains
              p.categoryId)) ∧
      (deleteDomain st slug).2.patterns.length +
        (st.patterns.filter (fun p =>
          ((st.categories.filter (fun c => d.id == c.domainId)).map (fun c => c.id)).contains
            p.categoryId)).length = st.patterns.length ∧
      getCategories (deleteDomain st slug).2 slug = [] ∧
      (∀ slugs, getPatterns (deleteDomain st slug).2 slug slugs = [])) := by
  constructor
  · intro hfind
    have hfil : st.domains.filter (fun x => x.slug == slug) = [] := by
      rw [List.filter_eq_nil_iff]
      exact List.find?_eq_none.mp hfind
    simp [deleteDomain, hfil]
  · intro d h
    have hdom : (deleteDomain st slug).2.domains =
        st.domains.filter (fun x => !(x.slug == slug)) := by
      simp [deleteDomain, h]
    have hcat : (deleteDomain st slug).2.categories =
        st.categories.filter (fun c => !(d.id == c.domainId)) := by
      simp [deleteDomain, h]
    have hpat : (deleteDomain st slug).2.patterns =
        st.patterns.filter (fun p =>
          !(((st.categories.filter (fun c => d.id == c.domainId)).map (fun c => c.id)).contains
              p.categoryId)) := by
      simp [deleteDomain, h]
    have hfind2 : findDomain (deleteDomain st slug).2 slug = none := by
      unfold findDomain
      rw [hdom]
      apply List.find?_eq_none.mpr
      intro a ha
      simpa using (List.mem_filter.mp ha).2
    refine ⟨?_, hdom, ?_, hcat, ?_, hpat, ?_, ?_, ?_⟩
    · simp [deleteDomain, h]
    · have hlen := List.length_eq_length_filter_add (l := st.domains) (fun x => x.slug == slug)
      have h1 : (st.domains.filter (fun x => x.slug == slug)).length = 1 := by
        rw [h]; rfl
      rw [hdom]
      omega
    · have hlen := List.length_eq_length_filter_add (l := st.categories)
        (fun c => d.id == c.domainId)
      rw [hcat]
      omega
    · have hlen := List.length_eq_length_filter_add (l := st.patterns)
        (fun p =>
          ((st.categories.filter (fun c => d.id == c.domainId)).map (fun c => c.id)).contains
            p.categoryId)
      rw [hpat]
      omega
    · simp [getCategories, hfind2]
    · intro slugs
      by_cases hs : slugs.isEmpty
      · simp [getPatterns, patternQueryRows, hs]
      · simp [getPatterns, patternQueryRows, hs, hfind2]

/-- A two-domain store: `eng` (id 1) owns categories `a`, `b` with
patterns 1 and 2, `oth` (id 2) owns category `c` with pattern 3. -/
def cascadeStore : Store :=
  let s1 := (addDomain Store.empty "eng" "Engineering" "E").2
  let s2 := (addDomain s1 "oth" "Other" "O").2
  let s3 := (addCategory s2 "eng" "a" "A" "-").2
  let s4 := (addCategory s3 "eng" "b" "B" "-").2
  let s5 := (addCategory s4 "oth" "c" "C" "-").2
  let s6 := (addPattern s5 "eng" "a" ⟨"p1", "d", "i", "t"⟩).2
  let s7 := (addPattern s6 "eng" "b" ⟨"p2", "d", "i", "t"⟩).2
  (addPattern s7 "oth" "c" ⟨"p3", "d", "i", "t"⟩).2

/-- Witness for C6 on the concrete two-domain store. -/
theorem c6_deleteDomainCascades_witness :
    (deleteDomain cascadeStore "eng").1 = Except.ok () ∧
    (deleteDomain cascadeStore "eng").2.domains.length + 1 = cascadeStore.domains.length ∧
    getCategories (deleteDomain cascadeStore "eng").2 "eng" = [] ∧
    getPatterns (deleteDomain cascadeStore "eng").2 "eng" ["a", "b"] = [] :=
  have hc := (c6_deleteDomainCascades cascadeStore "eng").2
    ⟨1, "eng", "Engineering", "E"⟩ (by decide)
  ⟨hc.1, hc.2.2.1, hc.2.2.2.2.2.2.2.1, hc.2.2.2.2.2.2.2.2 ["a", "b"]⟩

/-- On a list of category rows with pairwise distinct ids, `find?` by id
finds exactly the member with that id. -/
theorem find?_categoryId_eq_some {l : List CategoryRow}
    (hnd : (l.map (fun c => c.id)).Nodup) {k : Nat} {c : CategoryRow} :
    l.find? (fun x => x.id == k) = some c ↔ c ∈ l ∧ c.id = k := by
  induction l with
  | nil => simp
  | cons a t ih =>
    rw [List.map_cons, List.nodup_cons] at hnd
    by_cases ha : a.id = k
    · rw [List.find?_cons_of_pos _ (by simp [ha])]
      constructor
      · intro h
        cases h
        exact ⟨List.mem_cons_self _ _, ha⟩
      · rintro ⟨hmem, hck⟩
        rcases List.mem_cons.mp hmem with rfl | hmt
        · rfl
        · exact absurd (by rw [ha, ← hck]; exact List.mem_map_of_mem _ hmt) hnd.1
    · rw [List.find?_cons_of_neg _ (by simp [ha])]
      rw [ih hnd.2]
      constructor
      · rintro ⟨hm, hk⟩
        exact ⟨List.mem_cons_of_mem _ hm, hk⟩
      · rintro ⟨hm, hk⟩
        rcases List.mem_cons.mp hm with rfl | hmt
        · exact absurd hk ha
        · exact ⟨hmt, hk⟩

/-- C7: the `getPatterns` query returns exactly the patterns of the
named categories that exist under the named domain — characterized by
the membership equivalence on the joined rows — ordered by category
slug then pattern id (`Sorted rowLe`); an empty slug list or an unknown
domain yields an empty result rather than an error, and unknown slugs
are silently excluded (they satisfy no category of the store). -/
theorem c7_getPatternsQuery (st : Store) (domainSlug : String) (slugs : List String) :
    (slugs = [] → patternQueryRows st domainSlug slugs = []) ∧
    (findDomain st domainSlug = none → patternQueryRows st domainSlug slugs = []) ∧
    getPatterns st domainSlug slugs =
      (patternQueryRows st domainSlug slugs).map
        (fun r => ⟨r.2.label, r.2.description, r.2.intention, r.2.template⟩) ∧
    (patternQueryRows st domainSlug slugs).Sorted rowLe ∧
    (∀ d, findDomain st domainSlug = some d →
      (st.categories.map (fun c => c.id)).Nodup →
      ∀ x, x ∈ patternQueryRows st domainSlug slugs ↔
        x.2 ∈ st.patterns ∧ ∃ c, c ∈ st.categories ∧
          c.id = x.2.categoryId ∧ c.domainId = d.id ∧ c.slug ∈ slugs ∧ x.1 = c.slug) := by
  refine ⟨?_, ?_, rfl, ?_, ?_⟩
  · intro h
    simp [patternQueryRows, h]
  · intro h
    unfold patternQueryRows
    cases hs : slugs.isEmpty
    · simp [h]
    · simp
  · unfold patternQueryRows
    cases hs : slugs.isEmpty
    · cases hd : findDomain st domainSlug
      · simp [List.Sorted]
      · simp only [Bool.false_eq_true, if_false]
        exact List.sorted_insertionSort rowLe _
    · simp [List.Sorted]
  · intro d hd hnd x
    unfold patternQueryRows
    cases hs : slugs.isEmpty
    · rw [if_neg (by simp [hs])]
      rw [hd]
      rw [List.mem_insertionSort, List.mem_filterMap]
      constructor
      · rintro ⟨p, hp, hf⟩
        cases hc : st.categories.find? (fun c => c.id == p.categoryId) with
        | none => rw [hc] at hf; cases hf
        | some c =>
          rw [hc] at hf
          dsimp only at hf
          by_cases hcond : (c.domainId == d.id && slugs.contains c.slug) = true
          · rw [if_pos hcond] at hf
            cases hf
            have hcc := (find?_categoryId_eq_some hnd).mp hc
            have hcond2 : c.domainId = d.id ∧ c.slug ∈ slugs := by
              simpa [List.elem_iff] using hcond
            exact ⟨hp, c, hcc.1, hcc.2, hcond2.1, hcond2.2, rfl⟩
          · rw [if_neg hcond] at hf
            cases hf
      · rintro ⟨hpmem, c, hcmem, hcid, hcdom, hcslug, hxslug⟩
        refine ⟨x.2, hpmem, ?_⟩
        rw [(find?_categoryId_eq_some hnd).mpr ⟨hcmem, hcid⟩]
        dsimp only
        rw [if_pos (by simp [hcdom, hcslug]), ← hxslug]
    · have hempty : slugs = [] := List.isEmpty_iff.mp hs
      simp [hempty, hs]

/-- A store for the C7 witness: domain `top` (id 1) with categories
`b` (id 1) and `a` (id 2); patterns 1, 2 under `b` and 3 under `a`. -/
def queryStore : Store :=
  let s1 := (addDomain Store.empty "top" "Top" "-").2
  let s2 := (addCategory s1 "top" "b" "B" "-").2
  let s3 := (addCategory s2 "top" "a" "A" "-").2
  let s4 := (addPattern s3 "top" "b" ⟨"p1", "d", "i", "t"⟩).2
  let s5 := (addPattern s4 "top" "a" ⟨"p3", "d", "i", "t"⟩).2
  (addPattern s5 "top" "b" ⟨"p2", "d", "i", "t"⟩).2

/-- Witness for C7 on the concrete store, with the unknown slug `zz`
included in the requested set. -/
theorem c7_getPatternsQuery_witness :
    patternQueryRows queryStore "top" ([] : List String) = [] ∧
    patternQueryRows queryStore "missing" ["a", "b"] = [] ∧
    (patternQueryRows queryStore "top" ["b", "a", "zz"]).Sorted rowLe ∧
    ((("b", ⟨1, 1, "p1", "d", "i", "t"⟩) : String × PatternRow) ∈
        patternQueryRows queryStore "top" ["b", "a", "zz"] ↔
      (⟨1, 1, "p1", "d", "i", "t"⟩ : PatternRow) ∈ queryStore.patterns ∧
        ∃ c, c ∈ queryStore.categories ∧ c.id = 1 ∧ c.domainId = 1 ∧
          c.slug ∈ ["b", "a", "zz"] ∧ "b" = c.slug) :=
  ⟨(c7_getPatternsQuery queryStore "top" []).1 rfl,
   (c7_getPatternsQuery queryStore "missing" ["a", "b"]).2.1 (by decide),
   (c7_getPatternsQuery queryStore "top" ["b", "a", "zz"]).2.2.2.1,
   (c7_getPatternsQuery queryStore "top" ["b", "a", "zz"]).2.2.2.2
     ⟨1, "top", "Top", "-"⟩ (by decide) (by decide) ("b", ⟨1, 1, "p1", "d", "i", "t"⟩)⟩

/-- C8: TopNode slugs are globally unique — `addDomain` on a taken slug
fails with Conflict — while Subdivision slugs are unique only within
their owning TopNode: `addCategory` fails with Conflict exactly when the
slug is already used under the same domain, and succeeds (inserting the
row) whenever it is not, regardless of its use under other domains. -/
theorem c8_slugUniquenessScopes (st : Store) :
    (∀ slug n ds, st.domains.any (fun d => d.slug == slug) = true →
      addDomain st slug n ds = (Except.error Err.conflict, st)) ∧
    (∀ domainSlug d cSlug n ds, findDomain st domainSlug = some d →
      (st.categories.any fun c => c.domainId == d.id && c.slug == cSlug) = true →
      addCategory st domainSlug cSlug n ds = (Except.error Err.conflict, st)) ∧
    (∀ domainSlug d cSlug n ds, findDomain st domainSlug = some d →
      (st.categories.any fun c => c.domainId == d.id && c.slug == cSlug) = false →
      addCategory st domainSlug cSlug n ds =
        (Except.ok (),
          { st with
            categories := st.categories ++ [⟨st.nextCategoryId, d.id, cSlug, n, ds⟩]
            nextCategoryId := st.nextCategoryId + 1 })) := by
  refine ⟨?_, ?_, ?_⟩
  · intro slug n ds h
    simp [addDomain, h]
  · intro dS d cS n ds hd hdup
    simp [addCategory, hd, hdup]
  · intro dS d cS n ds hd hdup
    simp [addCategory, hd, hdup]

/-- Witness for C8 on the two-domain store: duplicating the `eng` slug
conflicts, re-using category slug `a` under `eng` conflicts, and
re-using it under `oth` succeeds. -/
theorem c8_slugUniquenessScopes_witness :
    addDomain cascadeStore "eng" "X" "Y" = (Except.error Err.conflict, cascadeStore) ∧
    addCategory cascadeStore "eng" "a" "X" "Y" = (Except.error Err.conflict, cascadeStore) ∧
    addCategory cascadeStore "oth" "a" "X" "Y" =
      (Except.ok (),
        { cascadeStore with
          categories := cascadeStore.categories ++
            [⟨cascadeStore.nextCategoryId, 2, "a", "X", "Y"⟩]
          nextCategoryId := cascadeStore.nextCategoryId + 1 }) :=
  ⟨(c8_slugUniquenessScopes cascadeStore).1 "eng" "X" "Y" (by decide),
   (c8_slugUniquenessScopes cascadeStore).2.1 "eng" ⟨1, "eng", "Engineering", "E"⟩
     "a" "X" "Y" (by decide) (by decide),
   (c8_slugUniquenessScopes cascadeStore).2.2 "oth" ⟨2, "oth", "Other", "O"⟩
     "a" "X" "Y" (by decide) (by decide)⟩

/-- C9 counterexample: the claim asserts for all three update operations
both "fails with NotFound if the target does not exist" and "a call with
no fields supplied is a no-op success"; on a nonexistent target with no
fields supplied, `updateDomain` returns success (violating the first
part) while `updateCategory` returns NotFound (violating the second),
so the claim holds under no reading. -/
theorem c9_noFieldsUpdate_counterexample :
    updateDomain Store.empty "ghost" ⟨none, none⟩ = (Except.ok (), Store.empty) ∧
    updateCategory Store.empty "ghost" "sub" ⟨none, none⟩ =
      (Except.error Err.notFound, Store.empty) := by
  decide

/-- C9 amended: with at least one field supplied, each update operation
changes only the supplied fields of its target and fails with NotFound
when the target does not exist; with no fields supplied, `updateDomain`
and `updatePattern` succeed as no-ops without consulting the target,
while `updateCategory` resolves the target first, failing with NotFound
when it is missing and succeeding as a no-op when it exists. -/
theorem c9_partialUpdates_amended (st : Store) :
    (∀ slug ch, ch.name = none ∧ ch.description = none →
      updateDomain st slug ch = (Except.ok (), st)) ∧
    (∀ slug ch, ¬(ch.name = none ∧ ch.description = none) →
      st.domains.any (fun d => d.slug == slug) = false →
      updateDomain st slug ch = (Except.error Err.notFound, st)) ∧
    (∀ slug ch, ¬(ch.name = none ∧ ch.description = none) →
      st.domains.any (fun d => d.slug == slug) = true →
      updateDomain st slug ch =
        (Except.ok (),
          { st with
            domains := st.domains.map fun d =>
              if d.slug == slug then
                { d with
                  name := ch.name.getD d.name
                  description := ch.description.getD d.description }
              else d })) ∧
    (∀ ds cs ch, findCategory st ds cs = none →
      updateCategory st ds cs ch = (Except.error Err.notFound, st)) ∧
    (∀ ds cs c ch, findCategory st ds cs = some c →
      ch.name = none ∧ ch.description = none →
      updateCategory st ds cs ch = (Except.ok (), st)) ∧
    (∀ ds cs c ch, findCategory st ds cs = some c →
      ¬(ch.name = none ∧ ch.description = none) →
      updateCategory st ds cs ch =
        (Except.ok (),
          { st with
            categories := st.categories.map fun cr =>
              if cr.id == c.id then
                { cr with
                  name := ch.name.getD cr.name
                  description := ch.description.getD cr.description }
              else cr })) ∧
    (∀ id ch, ch.label = none ∧ ch.description = none ∧ ch.intention = none ∧
        ch.template = none →
      updatePattern st id ch = (Except.ok (), st)) ∧
    (∀ id ch, ¬(ch.label = none ∧ ch.description = none ∧ ch.intention = none ∧
        ch.template = none) →
      st.patterns.any (fun p => p.id == id) = false →
      updatePattern st id ch = (Except.error Err.notFound, st)) ∧
    (∀ id ch, ¬(ch.label = none ∧ ch.description = none ∧ ch.intention = none ∧
        ch.template = none) →
      st.patterns.any (fun p => p.id == id) = true →
      updatePattern st id ch =
        (Except.ok (),
          { st with
            patterns := st.patterns.map fun p =>
              if p.id == id then
                { p with
                  label := ch.label.getD p.label
                  description := ch.description.getD p.description
                  intention := ch.intention.getD p.intention
                  template := ch.template.getD p.template }
              else p })) := by
  refine ⟨?_, ?_, ?_, ?_, ?_, ?_, ?_, ?_, ?_⟩
  · intro slug ch h
    simp [updateDomain, h]
  · intro slug ch h hmiss
    simp [updateDomain, h, hmiss]
  · intro slug ch h hhit
    simp [updateDomain, h, hhit]
  · intro ds cs ch h
    simp [updateCategory, h]
  · intro ds cs c ch h hempty
    simp [updateCategory, h, hempty]
  · intro ds cs c ch h hnonempty
    simp [updateCategory, h, hnonempty]
  · intro id ch h
    simp [updatePattern, h]
  · intro id ch h hmiss
    simp [updatePattern, h, hmiss]
  · intro id ch h hhit
    simp [updatePattern, h, hhit]

/-- Witness for C9 amended on the two-domain store. -/
theorem c9_partialUpdates_amended_witness :
    updateDomain cascadeStore "ghost" ⟨none, none⟩ = (Except.ok (), cascadeStore) ∧
    updateDomain cascadeStore "ghost" ⟨some "N", none⟩ =
      (Except.error Err.notFound, cascadeStore) ∧
    updateCategory cascadeStore "eng" "zz" ⟨some "N", none⟩ =
      (Except.error Err.notFound, cascadeStore) ∧
    updateCategory cascadeStore "eng" "a" ⟨none, none⟩ = (Except.ok (), cascadeStore) ∧
    updatePattern cascadeStore 99 ⟨some "N", none, none, none⟩ =
      (Except.error Err.notFound, cascadeStore) :=
  ⟨(c9_partialUpdates_amended cascadeStore).1 "ghost" ⟨none, none⟩ ⟨rfl, rfl⟩,
   (c9_partialUpdates_amended cascadeStore).2.1 "ghost" ⟨some "N", none⟩ (by simp) (by decide),
   (c9_partialUpdates_amended cascadeStore).2.2.2.1 "eng" "zz" ⟨some "N", none⟩ (by decide),
   (c9_partialUpdates_amended cascadeStore).2.2.2.2.1 "eng" "a" ⟨1, 1, "a", "A", "-"⟩
     ⟨none, none⟩ (by decide) ⟨rfl, rfl⟩,
   (c9_partialUpdates_amended cascadeStore).2.2.2.2.2.2.2.1 99 ⟨some "N", none, none, none⟩
     (by simp) (by decide)⟩

/-- On submission rows, `find?` by id commutes with mapping an
id-preserving function over the table. -/
theorem find?_id_map (g : SubmissionRow → SubmissionRow)
    (hg : ∀ s, (g s).id = s.id) (l : List SubmissionRow) (sid : Nat) :
    (l.map g).find? (fun s => s.id == sid) = (l.find? (fun s => s.id == sid)).map g := by
  induction l with
  | nil => rfl
  | cons a t ih =>
    rw [List.map_cons]
    cases hpa : (a.id == sid) with
    | true =>
      rw [@List.find?_cons_of_pos _ (fun s => s.id == sid) (g a) (t.map g)
            (by simp [hg a, hpa]),
          @List.find?_cons_of_pos _ (fun s => s.id == sid) a t hpa]
      rfl
    | false =>
      rw [@List.find?_cons_of_neg _ (fun s => s.id == sid) (g a) (t.map g)
            (by simp [hg a, hpa]),
          @List.find?_cons_of_neg _ (fun s => s.id == sid) a t (by simp [hpa])]
      exact ih

/-- C10: deleting an existing Leaf succeeds unconditionally (outstanding
submissions never block it); the `ON DELETE SET NULL` key nulls every
submission's `targetPatternId` that referenced it, and `getSubmission`
on such a submission still succeeds, returning the row with
`targetPatternId = null` (rows not referencing it are untouched). -/
theorem c10_deletePatternSetsNull (st : Store) (pid : Nat)
    (h : st.patterns.any (fun p => p.id == pid) = true) :
    deletePattern st pid =
      (Except.ok (),
        { st with
          patterns := st.patterns.filter fun p => !(p.id == pid)
          submissions := setNullTargets st.submissions [pid] }) ∧
    (∀ sid s, getSubmission st sid = some s → s.targetPatternId = some pid →
      getSubmission (deletePattern st pid).2 sid =
        some { s with targetPatternId := none }) ∧
    (∀ sid s, getSubmission st sid = some s → s.targetPatternId = none →
      getSubmission (deletePattern st pid).2 sid = some s) := by
  have hdel : deletePattern st pid =
      (Except.ok (),
        { st with
          patterns := st.patterns.filter fun p => !(p.id == pid)
          submissions := setNullTargets st.submissions [pid] }) := by
    simp [deletePattern, h]
  have hg : ∀ s : SubmissionRow,
      ((match s.targetPatternId with
        | some t => if [pid].contains t then { s with targetPatternId := none } else s
        | none => s) : SubmissionRow).id = s.id := by
    intro s
    cases s.targetPatternId
    · rfl
    · dsimp only
      split <;> rfl
  refine ⟨hdel, ?_, ?_⟩
  · intro sid s hget htarget
    rw [hdel]
    unfold getSubmission at hget ⊢
    dsimp only
    unfold setNullTargets
    rw [find?_id_map _ hg, hget]
    simp [htarget]
  · intro sid s hget htarget
    rw [hdel]
    unfold getSubmission at hget ⊢
    dsimp only
    unfold setNullTargets
    rw [find?_id_map _ hg, hget]
    simp [htarget]

/-- A store with one pattern (id 1) and two submissions: submission 1
(`modify`) references the pattern, submission 2 (`new`) does not. -/
def weakRefStore : Store :=
  let s1 := (addDomain Store.empty "eng" "Engineering" "E").2
  let s2 := (addCategory s1 "eng" "features" "F" "-").2
  let s3 := (addPattern s2 "eng" "features" ⟨"orig", "d", "i", "t"⟩).2
  let s4 := (addSubmission s3 4 ⟨"modify", some 1, none, none, "v2", "d", "i", "t", none⟩).2
  (addSubmission s4 5 ⟨"new", none, some "eng", some "features", "l", "d", "i", "t", none⟩).2

/-- Witness for C10 on the concrete store. -/
theorem c10_deletePatternSetsNull_witness :
    (deletePattern weakRefStore 1).1 = Except.ok () ∧
    getSubmission (deletePattern weakRefStore 1).2 1 =
      some ⟨1, "modify", SubStatus.pending, none, none, none, "v2", "d", "i", "t",
        none, 4, none⟩ ∧
    getSubmission (deletePattern weakRefStore 1).2 2 =
      some ⟨2, "new", SubStatus.pending, none, some "eng", some "features", "l", "d",
        "i", "t", none, 5, none⟩ :=
  have hc := c10_deletePatternSetsNull weakRefStore 1 (by decide)
  ⟨by rw [hc.1],
   hc.2.1 1 ⟨1, "modify", SubStatus.pending, some 1, none, none, "v2", "d", "i", "t",
     none, 4, none⟩ (by decide) rfl,
   hc.2.2 2 ⟨2, "new", SubStatus.pending, none, some "eng", some "features", "l", "d",
     "i", "t", none, 5, none⟩ (by decide) rfl⟩

end Patterns
